import Mathlib

/-!
Verification of the two-agent literature-review assistant
(`backend.py` and `frontend.py`) against its specification.

The repository delegates orchestration to the AutoGen framework, paper
search to the `arxiv` client library, and UI reactivity to Streamlit.
The shallow embedding below models:

* the local tool function `arxiv_search` (backend.py, lines 32-58),
  parameterised by the external arXiv service (a function from query
  strings to the relevance-ranked result feed) since the network is not
  code of this repository;
* the agent/team configuration built by `build_team`
  (backend.py, lines 73-117);
* the round-robin two-turn conversation semantics of
  `RoundRobinGroupChat` with `max_turns = 2`, as documented by the
  external framework and described in the spec (section 4.3);
* the streaming filter of `run_litrev` (backend.py, lines 120-134) over
  an abstract stream of framework messages;
* the Streamlit event handler of `frontend.py` (trigger guard and the
  event-loop fallback path) as a trace of driver operations.
-/

/-- A calendar date as carried by a Python `datetime` coming from the
arXiv feed.  arXiv publication timestamps always have four-digit years
(the service started in 1991), and `datetime` itself bounds the fields,
so the bounds are representation invariants of the raw value. -/
structure RawDate where
  year : Nat
  month : Nat
  day : Nat
  hYear : 1000 ≤ year ∧ year ≤ 9999
  hMonth : 1 ≤ month ∧ month ≤ 12
  hDay : 1 ≤ day ∧ day ≤ 31

/-- Zero-padded two-digit decimal rendering, as `strftime` produces for
`%m` and `%d`. -/
def twoDigits (n : Nat) : String :=
  String.mk [Nat.digitChar (n / 10 % 10), Nat.digitChar (n % 10)]

/-- Four-digit decimal rendering, as `strftime` produces for `%Y` on a
four-digit year. -/
def fourDigits (n : Nat) : String :=
  String.mk [Nat.digitChar (n / 1000 % 10), Nat.digitChar (n / 100 % 10),
    Nat.digitChar (n / 10 % 10), Nat.digitChar (n % 10)]

/-- `published.strftime("%Y-%m-%d")` from backend.py line 53. -/
def strftimeDate (d : RawDate) : String :=
  fourDigits d.year ++ "-" ++ twoDigits d.month ++ "-" ++ twoDigits d.day

/-- Syntactic `YYYY-MM-DD` check: ten characters, digits in the date
positions and dashes at positions 4 and 7. -/
def isYYYYMMDD (s : String) : Bool :=
  match s.data with
  | [y1, y2, y3, y4, s1, m1, m2, s2, d1, d2] =>
      y1.isDigit && y2.isDigit && y3.isDigit && y4.isDigit &&
      (s1 == '-') && m1.isDigit && m2.isDigit && (s2 == '-') &&
      d1.isDigit && d2.isDigit
  | _ => false

/-- One author object of a raw arXiv result (`a.name` is read from it). -/
structure RawAuthor where
  name : String
deriving DecidableEq

/-- One raw result yielded by `client.results(search)`.  Each field read
by `arxiv_search` is `Option`-valued: `none` models a missing attribute,
whose access raises (the spec notes malformed service responses are not
defensively validated and propagate as attribute-access failures). -/
structure RawResult where
  title : Option String
  authors : Option (List RawAuthor)
  published : Option RawDate
  summary : Option String
  pdf_url : Option String

/-- The Paper record assembled by `arxiv_search` (backend.py, lines
49-57). -/
structure Paper where
  title : String
  authors : List String
  published : String
  summary : String
  pdf_url : String
deriving DecidableEq

/-- Building one Paper dictionary from a raw result (the body of the
loop in backend.py lines 48-57); a missing attribute raises. -/
def paperOfResult (r : RawResult) : Except String Paper :=
  match r.title, r.authors, r.published, r.summary, r.pdf_url with
  | some t, some as_, some d, some s, some u =>
      Except.ok { title := t, authors := as_.map RawAuthor.name,
                  published := strftimeDate d, summary := s, pdf_url := u }
  | _, _, _, _, _ => Except.error "AttributeError"

/-- The whole `for result in client.results(search)` loop: build one
Paper per raw result, in feed order. -/
def collectPapers : List RawResult → Except String (List Paper)
  | [] => Except.ok []
  | r :: rs => do
      let p ← paperOfResult r
      let ps ← collectPapers rs
      Except.ok (p :: ps)

/-- The `arxiv` client library truncates the service feed to the
`max_results` bound carried by the `Search` object (its documented
behaviour; the library is external to this repository). -/
def clientResults (feed : List RawResult) (max_results : Nat) : List RawResult :=
  feed.take max_results

/-- `arxiv_search` (backend.py, lines 32-58), parameterised by the
external arXiv service: `feed query` is the full relevance-ranked
result stream the service would deliver for `query`.  A fresh client
and search are constructed on each invocation in the source; the
effect trace is modelled separately by `arxivSearchEffects`. -/
def arxiv_search (feed : String → List RawResult) (query : String)
    (max_results : Nat) : Except String (List Paper) :=
  collectPapers (clientResults (feed query) max_results)

/-- A raw result whose fields are in shape: the title is present and
non-empty and every other read attribute is present.  This is the
contract of the live arXiv service assumed by the code and the spec. -/
def WellFormedResult (r : RawResult) : Prop :=
  (∃ t, r.title = some t ∧ t ≠ "") ∧ r.authors.isSome ∧
    r.published.isSome ∧ r.summary.isSome ∧ r.pdf_url.isSome

/-- One construction/network effect of an `arxiv_search` invocation. -/
inductive Effect where
  | newClient
  | newSearch (query : String) (max_results : Nat)
  | netFetch (query : String) (max_results : Nat)
deriving DecidableEq

/-- The effect trace of a single `arxiv_search` invocation (backend.py,
lines 41-48): a fresh `arxiv.Client()`, a fresh `arxiv.Search(...)`,
then one outbound fetch when the results iterator is consumed.  No
cache lookup or cache store appears anywhere in the function body. -/
def arxivSearchEffects (query : String) (max_results : Nat) : List Effect :=
  [Effect.newClient, Effect.newSearch query max_results,
    Effect.netFetch query max_results]

/-- Effects of two back-to-back invocations with the same arguments. -/
def twoCallEffects (query : String) (max_results : Nat) : List Effect :=
  arxivSearchEffects query max_results ++ arxivSearchEffects query max_results

/-- Recogniser for outbound network fetches in an effect trace. -/
def isFetch : Effect → Bool
  | Effect.netFetch _ _ => true
  | _ => false

/-- Recogniser for client constructions in an effect trace. -/
def isClientNew : Effect → Bool
  | Effect.newClient => true
  | _ => false

/-- The OpenAI chat-completion client configuration built on
backend.py line 75. -/
structure ClientConfig where
  model : String
  api_key : String
deriving DecidableEq

/-- An `AssistantAgent` configuration as set up in `build_team`. -/
structure Agent where
  name : String
  description : String
  system_message : String
  tools : List String
  model_client : ClientConfig
  reflect_on_tool_use : Bool

/-- `OpenAIChatCompletionClient(model=model, api_key='your-key-here')`
from backend.py line 75. -/
def llm_client (model : String) : ClientConfig :=
  { model := model, api_key := "your-key-here" }

/-- The `search_agent` built in `build_team` (backend.py, lines 77-90). -/
def search_agent (model : String) : Agent :=
  { name := "search_agent"
    description := "Crafts arXiv queries and retrieves candidate papers."
    system_message :=
      "Given a user topic, think of the best arXiv query and call the " ++
      "provided tool. Always fetch five-times the papers requested so " ++
      "that you can down-select the most relevant ones. When the tool " ++
      "returns, choose exactly the number of papers requested and pass " ++
      "them as concise JSON to the summarizer."
    tools := ["arxiv_search"]
    model_client := llm_client model
    reflect_on_tool_use := true }

/-- The `summarizer_agent` built in `build_team` (backend.py, lines
93-112). -/
def summarizer_agent (model : String) : Agent :=
  { name := "summarizer_agent"
    description := "Produces a short Markdown review from provided papers."
    system_message :=
      "You are a research expert. Given a JSON list of papers, write a " ++
      "short literature review in Markdown:\n" ++
      "1. Start with a 2-3 sentence intro about the topic.\n" ++
      "2. For each paper, add a bullet with:\n" ++
      "     - Title (as a Markdown link)\n     - Authors\n" ++
      "     - The problem it addresses\n     - Its main contribution\n" ++
      "3. End with one sentence that sums up the key takeaway."
    tools := []
    model_client := llm_client model
    reflect_on_tool_use := false }

/-- A `RoundRobinGroupChat` configuration: the participant list and the
bounded turn count. -/
structure TeamConfig where
  participants : List Agent
  max_turns : Nat

/-- `build_team` (backend.py, lines 73-117): a two-agent round-robin
team capped at two turns, with no convergence-based termination
condition. -/
def build_team (model : String) : TeamConfig :=
  { participants := [search_agent model, summarizer_agent model]
    max_turns := 2 }

/-- Placeholder agent used only as the default of list indexing. -/
def defaultAgent : Agent :=
  { name := "", description := "", system_message := "", tools := []
    model_client := { model := "", api_key := "" }
    reflect_on_tool_use := false }

/-- One transcript line: a source label and its content. -/
structure Frame where
  source : String
  content : String
deriving DecidableEq

/-- The round-robin turn schedule of the external framework (spec
section 4.3): participants speak cyclically, and the run stops after
exactly `max_turns` turns regardless of what the turns contain. -/
def turnOrder (t : TeamConfig) : List Agent :=
  (List.range t.max_turns).map
    (fun i => t.participants.getD (i % t.participants.length) defaultAgent)

/-- The visible transcript of a team run: one frame per turn, labelled
with the speaking agent's name; `content i` is whatever text the
generative model produces on turn `i` (unconstrained). -/
def teamTranscript (t : TeamConfig) (content : Nat → String) : List Frame :=
  (List.range t.max_turns).map
    (fun i => { source := (t.participants.getD (i % t.participants.length)
                  defaultAgent).name
                content := content i })

/-- A message produced on the team stream of `team.run_stream(...)`.
Only `TextMessage` is surfaced; tool-call requests, tool execution
results, and the final task-result event are the other stream items. -/
inductive Message where
  | text (source : String) (content : String)
  | toolCallRequest (source : String) (payload : String)
  | toolCallResult (source : String) (payload : String)
  | taskResult (payload : String)
deriving DecidableEq

/-- Whether a stream item passes the `isinstance(msg, TextMessage)`
test on backend.py line 133. -/
def isTextMsg : Message → Bool
  | Message.text _ _ => true
  | _ => false

/-- The f-string `f"{msg.source}: {msg.content}"` on backend.py
line 134 (meaningful only for text messages). -/
def formatMsg : Message → String
  | Message.text s c => s ++ ": " ++ c
  | _ => ""

/-- The task prompt assembled in `run_litrev` (backend.py, lines
128-130). -/
def task_prompt (topic : String) (num_papers : Nat) : String :=
  "Conduct a literature review on **" ++ topic ++ "** and return exactly " ++
    toString num_papers ++ " papers."

/-- The `async for` loop of `run_litrev` (backend.py, lines 132-134)
over the team stream, taken as a list of messages: yield one labelled
line per `TextMessage`, in stream order, and nothing for any other
stream item. -/
def run_litrev : List Message → List String
  | [] => []
  | Message.text s c :: rest => (s ++ ": " ++ c) :: run_litrev rest
  | _ :: rest => run_litrev rest

/-- The guarded Streamlit handler `if st.button("Search") and query:`
(frontend.py line 23): the list of `(topic, num_papers)` invocations of
`run_litrev` a rerun performs.  Python string truthiness makes the
empty topic falsy, so the guard fails and no invocation happens. -/
def frontendPipelineCalls (pressed : Bool) (query : String)
    (n_papers : Nat) : List (String × Nat) :=
  if pressed && (query != "") then [(query, n_papers)] else []

/-- One event-loop operation of the frontend request handler. -/
inductive DriverOp where
  | tryAsyncioRun
  | newEventLoop
  | setEventLoop
  | runUntilComplete
  | closeLoop
deriving DecidableEq

/-- The driver operations performed by the `try`/`except RuntimeError`
block of frontend.py lines 34-41, as a function of whether
`asyncio.run(_runner())` raises `RuntimeError`.  On the fallback path
the code creates a new loop, installs it with `asyncio.set_event_loop`,
and runs the request to completion with `run_until_complete`; no
`loop.close()` (the `closeLoop` constructor) appears in the source. -/
def runnerDriverOps (runRaisesRuntimeError : Bool) : List DriverOp :=
  if runRaisesRuntimeError then
    [DriverOp.tryAsyncioRun, DriverOp.newEventLoop, DriverOp.setEventLoop,
      DriverOp.runUntilComplete]
  else
    [DriverOp.tryAsyncioRun]

/-- One tool invocation the retriever agent issues against
`arxiv_search`. -/
structure ToolCall where
  query : String
  max_results : Nat
deriving DecidableEq

/-- The over-fetch factor fixed by the `search_agent` system message
("Always fetch five-times the papers requested"). -/
def overFetchFactor : Nat := 5

/-- The retriever turn of the generative model: for a task on `topic`
asking for `n` papers, the tool calls it issues and the papers it
forwards to the summarizer.  The model's internal decisions are
external to this repository, so the turn is a behaviour parameter. -/
structure RetrieverBehavior where
  toolCalls : String → Nat → List ToolCall
  papersOut : String → Nat → List Paper

/-- The Markdown document shape requested from the summarizer: an
intro, one bullet per paper, and a closing takeaway sentence. -/
structure WriterDoc where
  intro : String
  bullets : List String
  closing : String
deriving DecidableEq

/-- The writer turn of the generative model, as a behaviour
parameter. -/
structure WriterBehavior where
  write : List Paper → WriterDoc

/-- A retriever that follows the `search_agent` system message of
`build_team`: it issues exactly one tool call requesting
`overFetchFactor * n` results, and forwards exactly `n` papers. -/
def FollowsRetrieverPrompt (b : RetrieverBehavior) : Prop :=
  ∀ topic n, (∃ q, b.toolCalls topic n =
      [ToolCall.mk q (overFetchFactor * n)]) ∧
    (b.papersOut topic n).length = n

/-- A writer that follows the `summarizer_agent` system message of
`build_team`: one bullet per provided paper and a non-empty closing
sentence. -/
def FollowsWriterPrompt (b : WriterBehavior) : Prop :=
  ∀ papers, (b.write papers).bullets.length = papers.length ∧
    (b.write papers).closing ≠ ""

/-- The observable outcome of one two-turn pipeline run. -/
structure PipelineRun where
  searchCalls : List ToolCall
  retrieverPapers : List Paper
  reviewDoc : WriterDoc

/-- One end-to-end run of the team built by `build_team`, for given
agent behaviours: turn 1 the retriever issues its tool calls and
forwards papers, turn 2 the writer produces the review from exactly
those papers (round-robin order, two turns). -/
def runPipelineScenario (rb : RetrieverBehavior) (wb : WriterBehavior)
    (topic : String) (n : Nat) : PipelineRun :=
  { searchCalls := rb.toolCalls topic n
    retrieverPapers := rb.papersOut topic n
    reviewDoc := wb.write (rb.papersOut topic n) }

theorem isDigit_digitChar_of_lt (k : Nat) (h : k < 10) :
    (Nat.digitChar k).isDigit = true := by
  interval_cases k <;> decide

theorem isDigit_digitChar_mod (k : Nat) :
    (Nat.digitChar (k % 10)).isDigit = true :=
  isDigit_digitChar_of_lt _ (Nat.mod_lt _ (by omega))

/-- The date rendering of backend.py line 53 is always syntactically
`YYYY-MM-DD`. -/
theorem isYYYYMMDD_strftimeDate (d : RawDate) :
    isYYYYMMDD (strftimeDate d) = true := by
  simp [strftimeDate, fourDigits, twoDigits, isYYYYMMDD, String.data_append,
    isDigit_digitChar_mod]

/-- A well-formed raw result yields a Paper with a non-empty title and
a valid date string. -/
theorem paperOfResult_wellFormed (r : RawResult) (h : WellFormedResult r) :
    ∃ p, paperOfResult r = Except.ok p ∧ p.title ≠ "" ∧
      isYYYYMMDD p.published = true := by
  obtain ⟨⟨t, ht, htne⟩, ha, hp, hs, hu⟩ := h
  obtain ⟨as_, ha⟩ := Option.isSome_iff_exists.mp ha
  obtain ⟨d, hp⟩ := Option.isSome_iff_exists.mp hp
  obtain ⟨s, hs⟩ := Option.isSome_iff_exists.mp hs
  obtain ⟨u, hu⟩ := Option.isSome_iff_exists.mp hu
  refine ⟨{ title := t, authors := as_.map RawAuthor.name,
            published := strftimeDate d, summary := s, pdf_url := u },
    ?_, ?_, ?_⟩
  · simp [paperOfResult, ht, ha, hp, hs, hu]
  · exact htne
  · exact isYYYYMMDD_strftimeDate d

/-- `collectPapers` on a list of well-formed raw results succeeds, is
length-preserving, and every produced paper has a non-empty title and a
valid date string. -/
theorem collectPapers_wellFormed (rs : List RawResult)
    (h : ∀ r ∈ rs, WellFormedResult r) :
    ∃ ps, collectPapers rs = Except.ok ps ∧ ps.length = rs.length ∧
      ∀ p ∈ ps, p.title ≠ "" ∧ isYYYYMMDD p.published = true := by
  induction rs with
  | nil => exact ⟨[], rfl, rfl, by simp⟩
  | cons r rs ih =>
      obtain ⟨p, hp, hpt, hpd⟩ := paperOfResult_wellFormed r (h r (by simp))
      obtain ⟨ps, hps, hlen, hall⟩ := ih (fun x hx => h x (by simp [hx]))
      refine ⟨p :: ps, ?_, by simp [hlen], ?_⟩
      · simp only [collectPapers, hp, hps]
        rfl
      · intro q hq
        rcases List.mem_cons.mp hq with hq | hq
        · exact hq ▸ ⟨hpt, hpd⟩
        · exact hall q hq

/-- A concrete well-formed raw result used by witnesses. -/
def sampleDate : RawDate :=
  { year := 2020, month := 1, day := 2
    hYear := by omega, hMonth := by omega, hDay := by omega }

/-- A concrete raw arXiv result with every attribute present. -/
def sampleRaw : RawResult :=
  { title := some "Sample Title"
    authors := some [{ name := "Ada Lovelace" }]
    published := some sampleDate
    summary := some "An abstract."
    pdf_url := some "http://example.org/sample.pdf" }

deriving instance DecidableEq for Except

theorem sampleRaw_wellFormed : ∀ r ∈ [sampleRaw], WellFormedResult r := by
  intro r hr
  simp only [List.mem_singleton] at hr
  subst hr
  exact ⟨⟨"Sample Title", rfl, by decide⟩, rfl, rfl, rfl, rfl⟩

/-- C1: for every query, `arxiv_search` with `max_results = 5` returns
at most 5 Paper records, each with a non-empty title and a published
string in `YYYY-MM-DD` form, under the arXiv service contract that the
feed entries carry their attributes with non-empty titles. -/
theorem c1_arxiv_search_bounded_and_valid (feed : String → List RawResult)
    (query : String) (hwf : ∀ r ∈ feed query, WellFormedResult r) :
    ∃ papers, arxiv_search feed query 5 = Except.ok papers ∧
      papers.length ≤ 5 ∧
      ∀ p ∈ papers, p.title ≠ "" ∧ isYYYYMMDD p.published = true := by
  obtain ⟨ps, hps, hlen, hall⟩ := collectPapers_wellFormed
    ((feed query).take 5) (fun r hr => hwf r (List.take_subset _ _ hr))
  refine ⟨ps, ?_, ?_, hall⟩
  · simpa [arxiv_search, clientResults] using hps
  · rw [hlen, List.length_take]
    exact Nat.min_le_left _ _

/-- Witness for C1 at a concrete one-element feed. -/
theorem c1_witness :
    (∀ r ∈ [sampleRaw], WellFormedResult r) ∧
    ∃ papers,
      arxiv_search (fun _ => [sampleRaw]) "graph neural networks" 5 =
        Except.ok papers ∧ papers.length ≤ 5 ∧
      ∀ p ∈ papers, p.title ≠ "" ∧ isYYYYMMDD p.published = true :=
  ⟨sampleRaw_wellFormed,
    c1_arxiv_search_bounded_and_valid (fun _ => [sampleRaw])
      "graph neural networks" sampleRaw_wellFormed⟩

/-- C5: `arxiv_search` performs no caching.  A single invocation always
constructs a fresh client and search and performs its own fetch, so two
invocations with the same arguments perform two independent outbound
calls; and the two results are not forced to be equal, since the
service feed may differ between the calls. -/
theorem c5_no_caching :
    (∀ q m, twoCallEffects q m =
        arxivSearchEffects q m ++ arxivSearchEffects q m) ∧
    (∀ q m, ((twoCallEffects q m).filter isFetch).length = 2 ∧
        ((twoCallEffects q m).filter isClientNew).length = 2) ∧
    ∃ feed1 feed2 query,
      arxiv_search feed1 query 5 ≠ arxiv_search feed2 query 5 := by
  refine ⟨fun q m => rfl, fun q m => ⟨rfl, rfl⟩,
    fun _ => [], fun _ => [sampleRaw], "x", ?_⟩
  decide

/-- C6: an empty service result set makes `arxiv_search` return the
empty list, not an error. -/
theorem c6_empty_feed_yields_empty_list (feed : String → List RawResult)
    (query : String) (max_results : Nat) (h : feed query = []) :
    arxiv_search feed query max_results = Except.ok [] := by
  simp [arxiv_search, clientResults, h, collectPapers]

/-- Witness for C6 at a concrete empty feed. -/
theorem c6_witness :
    arxiv_search (fun _ => []) "quantum computing" 5 = Except.ok [] :=
  c6_empty_feed_yields_empty_list (fun _ => []) "quantum computing" 5 rfl

/-- C9: `build_team` hard-codes the literal placeholder credential for
every model identifier: both participants share a client whose api key
is the source literal, and `build_team` has no other input from which a
credential could be sourced. -/
theorem c9_hardcoded_placeholder_credential (model : String) :
    (llm_client model).api_key = "your-key-here" ∧
    ((build_team model).participants.map
        (fun a => a.model_client.api_key)) =
      ["your-key-here", "your-key-here"] :=
  ⟨rfl, rfl⟩

/-- C2: for every model and whatever text the generative model puts in
the turns, the team built by `build_team` runs exactly two turns, the
retriever's first and the writer's second, and stops because the turn
bound is reached (the schedule does not depend on the turn contents);
the transcript therefore contains one entry from each collaborator in
retriever-then-writer order. -/
theorem c2_two_turns_retriever_then_writer (model : String)
    (content : Nat → String) :
    (teamTranscript (build_team model) content).map Frame.source =
      ["search_agent", "summarizer_agent"] ∧
    (teamTranscript (build_team model) content).length =
      (build_team model).max_turns ∧
    "search_agent" ∈
      (teamTranscript (build_team model) content).map Frame.source ∧
    "summarizer_agent" ∈
      (teamTranscript (build_team model) content).map Frame.source := by
  have h : (teamTranscript (build_team model) content).map Frame.source =
      ["search_agent", "summarizer_agent"] := rfl
  refine ⟨h, rfl, ?_, ?_⟩ <;> rw [h] <;> simp

/-- C3: with an empty topic string the Streamlit trigger is inert —
the handler performs no `run_litrev` invocation, whether or not the
button was pressed. -/
theorem c3_empty_topic_is_inert (pressed : Bool) (n_papers : Nat) :
    frontendPipelineCalls pressed "" n_papers = [] := by
  cases pressed <;> rfl

/-- C4 counterexample: on the fallback path (when `asyncio.run`
raises), the event loop created for the request is never discarded —
no close operation occurs in the handler's driver-operation trace,
contradicting the claim that the driver is discarded afterward. -/
theorem c4_counterexample_driver_not_discarded :
    DriverOp.closeLoop ∉ runnerDriverOps true := by decide

/-- C4 amended: when `asyncio.run` fails with `RuntimeError`, the shell
takes exactly one fallback path — it creates exactly one new event
loop, installs it as the current loop, and runs the request to
completion on it — but the loop is not discarded afterward (the trace
contains no close operation and ends with the completed run). -/
theorem c4_fallback_creates_and_runs_but_keeps_driver :
    runnerDriverOps true = [DriverOp.tryAsyncioRun, DriverOp.newEventLoop,
      DriverOp.setEventLoop, DriverOp.runUntilComplete] ∧
    ((runnerDriverOps true).filter
        (fun op => op == DriverOp.newEventLoop)).length = 1 ∧
    DriverOp.runUntilComplete ∈ runnerDriverOps true ∧
    DriverOp.closeLoop ∉ runnerDriverOps true := by decide

theorem run_litrev_eq_map_filter (stream : List Message) :
    run_litrev stream = (stream.filter isTextMsg).map formatMsg := by
  induction stream with
  | nil => rfl
  | cons m rest ih =>
      cases m <;> simp [run_litrev, isTextMsg, formatMsg, ih,
        List.filter_cons]

theorem run_litrev_lines_labelled (stream : List Message)
    (h : ∀ s c, Message.text s c ∈ stream → s ≠ "") :
    ∀ line ∈ run_litrev stream,
      ∃ src content, line = src ++ ": " ++ content ∧ src ≠ "" := by
  induction stream with
  | nil => simp [run_litrev]
  | cons m rest ih =>
      have htail : ∀ s c, Message.text s c ∈ rest → s ≠ "" :=
        fun s c hm => h s c (List.mem_cons_of_mem m hm)
      cases m with
      | text s c =>
          intro line hline
          simp only [run_litrev] at hline
          rcases List.mem_cons.mp hline with h1 | h1
          · exact ⟨s, c, h1, h s c (List.mem_cons_self _ _)⟩
          · exact ih htail line h1
      | toolCallRequest s p =>
          intro line hline
          exact ih htail line (by simpa [run_litrev] using hline)
      | toolCallResult s p =>
          intro line hline
          exact ih htail line (by simpa [run_litrev] using hline)
      | taskResult p =>
          intro line hline
          exact ih htail line (by simpa [run_litrev] using hline)

/-- C8: when every surfaced message of the stream carries a non-empty
source (true of this team: the task message is from the user and agent
names are non-empty), every line `run_litrev` yields has the form
`source: content` with a non-empty source label, and the generator
emits exactly one such line per surfaced message in stream order. -/
theorem c8_every_line_labelled (stream : List Message)
    (h : ∀ s c, Message.text s c ∈ stream → s ≠ "") :
    run_litrev stream = (stream.filter isTextMsg).map formatMsg ∧
    ∀ line ∈ run_litrev stream,
      ∃ src content, line = src ++ ": " ++ content ∧ src ≠ "" :=
  ⟨run_litrev_eq_map_filter stream, run_litrev_lines_labelled stream h⟩

theorem c8_hyp_concrete :
    ∀ s c, Message.text s c ∈
      [Message.text "search_agent" "found papers",
       Message.toolCallResult "search_agent" "raw",
       Message.text "summarizer_agent" "review",
       Message.taskResult "done"] → s ≠ "" := by
  intro s c hm
  simp at hm
  rcases hm with ⟨hs, -⟩ | ⟨hs, -⟩ <;> subst hs <;> decide

/-- Witness for C8 at a concrete four-message stream. -/
theorem c8_witness :
    (∀ s c, Message.text s c ∈
        [Message.text "search_agent" "found papers",
         Message.toolCallResult "search_agent" "raw",
         Message.text "summarizer_agent" "review",
         Message.taskResult "done"] → s ≠ "") ∧
    (run_litrev
        [Message.text "search_agent" "found papers",
         Message.toolCallResult "search_agent" "raw",
         Message.text "summarizer_agent" "review",
         Message.taskResult "done"] =
      (([Message.text "search_agent" "found papers",
         Message.toolCallResult "search_agent" "raw",
         Message.text "summarizer_agent" "review",
         Message.taskResult "done"]).filter isTextMsg).map formatMsg ∧
     ∀ line ∈ run_litrev
        [Message.text "search_agent" "found papers",
         Message.toolCallResult "search_agent" "raw",
         Message.text "summarizer_agent" "review",
         Message.taskResult "done"],
       ∃ src content, line = src ++ ": " ++ content ∧ src ≠ "") :=
  ⟨c8_hyp_concrete, c8_every_line_labelled _ c8_hyp_concrete⟩

/-- C10: a frame is yielded by `run_litrev` exactly for the
`TextMessage` items of the team stream: the yielded lines are the
formatted text messages in stream order, a single message produces a
frame exactly when it is a text message, and dropping the non-text
items of the stream leaves the output unchanged. -/
theorem c10_surfaces_exactly_text_messages (stream : List Message) :
    run_litrev stream = (stream.filter isTextMsg).map formatMsg ∧
    (∀ m : Message,
      run_litrev [m] = if isTextMsg m then [formatMsg m] else []) ∧
    (∀ m : Message, run_litrev [m] ≠ [] ↔ isTextMsg m = true) := by
  refine ⟨run_litrev_eq_map_filter stream, ?_, ?_⟩
  · intro m
    cases m <;> rfl
  · intro m
    cases m <;> simp [run_litrev, isTextMsg]

/-- C7: under behaviours that follow the two system messages installed
by `build_team` — the retriever issues exactly one tool call for
five-times the requested count and forwards exactly the requested
number of papers, the writer emits one bullet per paper and a closing
sentence — a run for count 3 issues exactly one search call requesting
15 results, the retriever turn yields exactly 3 papers, and the writer
turn yields a document with exactly 3 bullets and a non-empty closing
sentence. -/
theorem c7_count3_overfetch_15 (rb : RetrieverBehavior)
    (wb : WriterBehavior) (topic : String)
    (hr : FollowsRetrieverPrompt rb) (hw : FollowsWriterPrompt wb) :
    (runPipelineScenario rb wb topic 3).searchCalls.length = 1 ∧
    (∀ c ∈ (runPipelineScenario rb wb topic 3).searchCalls,
      c.max_results = 15) ∧
    (runPipelineScenario rb wb topic 3).retrieverPapers.length = 3 ∧
    (runPipelineScenario rb wb topic 3).reviewDoc.bullets.length = 3 ∧
    (runPipelineScenario rb wb topic 3).reviewDoc.closing ≠ "" := by
  obtain ⟨⟨q, hq⟩, hn⟩ := hr topic 3
  obtain ⟨hb, hc⟩ := hw (rb.papersOut topic 3)
  refine ⟨?_, ?_, hn, ?_, hc⟩
  · simp [runPipelineScenario, hq]
  · intro c hcall
    simp only [runPipelineScenario] at hcall
    rw [hq] at hcall
    simp only [List.mem_singleton] at hcall
    subst hcall
    rfl
  · exact hb.trans hn

/-- A concrete instruction-following retriever behaviour. -/
def demoRetriever : RetrieverBehavior :=
  { toolCalls := fun topic n => [ToolCall.mk topic (overFetchFactor * n)]
    papersOut := fun _ n => List.replicate n
      { title := "P", authors := ["A"], published := "2020-01-02",
        summary := "S", pdf_url := "U" } }

/-- A concrete instruction-following writer behaviour. -/
def demoWriter : WriterBehavior :=
  { write := fun papers =>
      { intro := "Recent work on the topic."
        bullets := papers.map Paper.title
        closing := "Overall, the field is advancing quickly." } }

theorem demoRetriever_follows : FollowsRetrieverPrompt demoRetriever :=
  fun topic n => ⟨⟨topic, rfl⟩, by simp [demoRetriever]⟩

theorem demoWriter_follows : FollowsWriterPrompt demoWriter :=
  fun papers => ⟨by simp [demoWriter], by simp [demoWriter]⟩

/-- Witness for C7 at concrete compliant behaviours. -/
theorem c7_witness :
    FollowsRetrieverPrompt demoRetriever ∧ FollowsWriterPrompt demoWriter ∧
    ((runPipelineScenario demoRetriever demoWriter
        "graph neural networks" 3).searchCalls.length = 1 ∧
     (∀ c ∈ (runPipelineScenario demoRetriever demoWriter
        "graph neural networks" 3).searchCalls, c.max_results = 15) ∧
     (runPipelineScenario demoRetriever demoWriter
        "graph neural networks" 3).retrieverPapers.length = 3 ∧
     (runPipelineScenario demoRetriever demoWriter
        "graph neural networks" 3).reviewDoc.bullets.length = 3 ∧
     (runPipelineScenario demoRetriever demoWriter
        "graph neural networks" 3).reviewDoc.closing ≠ "") :=
  ⟨demoRetriever_follows, demoWriter_follows,
    c7_count3_overfetch_15 demoRetriever demoWriter "graph neural networks"
      demoRetriever_follows demoWriter_follows⟩
